import Mathlib

/-!
Verification of the goat-frame state-transition engine (GOATNetwork/farcaster-goat).

Shallow embedding of:
- `src/goat-frame/src/frame_logic.rs` (`Button`, `process_button`),
- `src/goat-frame/src/config.rs` (`Config`),
- `src/goat-frame/src/main.rs` (`index`, `handle_frame`, `FrameResponse`).
Rust `usize` button indices are embedded as `Nat` (usize is unsigned, so
negative indices are not representable). Fallible Rust `Result` values are
embedded as `Except`.
-/

namespace GoatFrame

/-- `config.rs`: the single configuration value, the base domain string. -/
structure Config where
  domain : String
deriving DecidableEq, Repr

/-- `frame_logic.rs`: a button with a single label. -/
structure Button where
  label : String
deriving DecidableEq, Repr

/-- The error type of the application. `errors.rs` is not part of the
provided sources; the two constructors are exactly those used by
`frame_logic.rs` (`AppError::BadRequest(String)`) and `main.rs`
(`AppError::InternalServerError`). Modelled from the spec and the usage
sites: a `BadRequest` carries the reason string. -/
inductive AppError where
  | BadRequest (reason : String)
  | InternalServerError
deriving DecidableEq, Repr

/-- `frame_logic.rs` lines 11–48: the transition resolver. A fixed table
keyed by the button index; `format!("{}/assets/….png", config.domain)`
becomes string concatenation. Any index outside 1–4 yields
`AppError::BadRequest` with a reason naming the offending index. -/
def process_button (button_index : Nat) (config : Config) :
    Except AppError (String × List Button) :=
  match button_index with
  | 1 => Except.ok
      (config.domain ++ "/assets/buy_boost.png",
       [⟨"Confirm"⟩, ⟨"Back"⟩])
  | 2 => Except.ok
      (config.domain ++ "/assets/add_liquidity.png",
       [⟨"Add"⟩, ⟨"Back"⟩])
  | 3 => Except.ok
      (config.domain ++ "/assets/gift.png",
       [⟨"Send Gift"⟩, ⟨"Back"⟩])
  | 4 => Except.ok
      (config.domain ++ "/assets/more.png",
       [⟨"Reward"⟩, ⟨"Bid"⟩, ⟨"Top-up"⟩, ⟨"Back"⟩])
  | _ => Except.error
      (AppError.BadRequest ("Invalid button index: " ++ toString button_index))

/-- The literal text of the `index` template in `main.rs` before the first
`{}` slot (which receives `config.domain`). -/
def htmlPre : String :=
  "\n    <!DOCTYPE html>\n    <html lang=\"en\">\n    <head>\n        <meta charset=\"UTF-8\">\n        <meta name=\"viewport\" content=\"width=device-width, initial-scale=1.0\">\n        <title>Moxie Store Frame</title>\n        <meta property=\"fc:frame\" content=\"vNext\" />\n        <meta property=\"fc:frame:image\" content=\""

/-- The literal text of the `index` template in `main.rs` between the two
`{}` slots: the main asset path, the four entry buttons and the start of
the post_url attribute. -/
def htmlMid : String :=
  "/assets/main.png\" />\n        <meta property=\"fc:frame:button:1\" content=\"Buy & Boost\" />\n        <meta property=\"fc:frame:button:2\" content=\"Add Liquidity\" />\n        <meta property=\"fc:frame:button:3\" content=\"Gift\" />\n        <meta property=\"fc:frame:button:4\" content=\"More\" />\n        <meta property=\"fc:frame:post_url\" content=\""

/-- The literal text of the `index` template in `main.rs` after the second
`{}` slot. -/
def htmlPost : String :=
  "/api/frame\" />\n    </head>\n    <body>\n        <h1>Moxie Store Frame</h1>\n    </body>\n    </html>\n    "

/-- `main.rs` lines 31–51: the HTML produced by
`format!(r#"…"#, config.domain, config.domain)` in the `index` handler. -/
def indexHtml (config : Config) : String :=
  htmlPre ++ config.domain ++ htmlMid ++ config.domain ++ htmlPost

/-- An HTTP response carrying an HTML body (`HttpResponse::Ok()
.content_type("text/html").body(html)` in `main.rs`). -/
structure HtmlResponse where
  status : Nat
  contentType : String
  body : String
deriving DecidableEq, Repr

/-- `main.rs` lines 30–60: the `index` handler. It builds the templated
HTML, and takes the internal-error branch exactly when the generated HTML
is empty; otherwise it answers 200 with the HTML body. -/
def index (config : Config) : Except AppError HtmlResponse :=
  let html := indexHtml config
  if html.isEmpty then
    Except.error AppError.InternalServerError
  else
    Except.ok ⟨200, "text/html", html⟩

/-- `main.rs`: the serialized body of the action endpoint's answer. -/
structure FrameResponse where
  image : String
  buttons : List Button
deriving DecidableEq, Repr

/-- An HTTP response carrying a JSON-serialized `FrameResponse`
(`HttpResponse::Ok().json(response)` in `main.rs`). -/
structure JsonResponse where
  status : Nat
  body : FrameResponse
deriving DecidableEq, Repr

/-- `main.rs` lines 62–84: the action handler. On a resolver success it
answers 200 with the resolved image and buttons; on a resolver error it
logs and answers 200 with the fixed fallback frame (main image,
"Error Occurred" / "Try Again"). It never propagates the error. -/
def handle_frame (button_index : Nat) (config : Config) :
    Except AppError JsonResponse :=
  match process_button button_index config with
  | Except.ok (image, buttons) =>
      Except.ok ⟨200, ⟨image, buttons⟩⟩
  | Except.error _ =>
      Except.ok ⟨200, ⟨config.domain ++ "/assets/main.png",
        [⟨"Error Occurred"⟩, ⟨"Try Again"⟩]⟩⟩

/-- The entry card descriptor (spec §3 `FrameDescriptor`): the field values
carried by the `fc:frame` meta tags that `index` emits. -/
structure FrameDescriptor where
  imageURL : String
  actionURL : String
  buttonLabels : List String
deriving DecidableEq, Repr

/-- The descriptor-level view of the `index` handler (`renderEntry` in the
spec): the image URL, post URL and ordered button labels embedded in the
meta tags of `indexHtml` (`main.rs` lines 38–45). -/
def renderEntry (domain : String) : FrameDescriptor :=
  { imageURL := domain ++ "/assets/main.png"
    actionURL := domain ++ "/api/frame"
    buttonLabels := ["Buy & Boost", "Add Liquidity", "Gift", "More"] }

/-- The meta tag emitted for entry button `k` with label `label`, as it
appears in the `index` template. -/
def buttonMetaTag (k : Nat) (label : String) : String :=
  "<meta property=\"fc:frame:button:" ++ toString k ++ "\" content=\"" ++
    label ++ "\" />"

end GoatFrame

namespace GoatFrame

/-! ## Helper lemmas -/

theorem isEmpty_append_false (s t : String) (h : s.isEmpty = false) :
    (s ++ t).isEmpty = false := by
  rw [Bool.eq_false_iff] at h ⊢
  intro hst
  apply h
  rw [String.isEmpty_iff] at hst ⊢
  have hd := congrArg String.data hst
  rw [String.data_append] at hd
  rcases List.append_eq_nil.mp hd with ⟨h1, _⟩
  exact String.ext h1

set_option maxRecDepth 8192 in
theorem htmlPre_isEmpty_false : htmlPre.isEmpty = false := by decide

theorem indexHtml_isEmpty_false (config : Config) :
    (indexHtml config).isEmpty = false :=
  isEmpty_append_false _ _ (isEmpty_append_false _ _
    (isEmpty_append_false _ _ (isEmpty_append_false _ _ htmlPre_isEmpty_false)))

theorem process_button_out_of_table (i : Nat) (config : Config)
    (h : ¬(1 ≤ i ∧ i ≤ 4)) :
    process_button i config =
      Except.error (AppError.BadRequest ("Invalid button index: " ++ toString i)) := by
  match i with
  | 0 => rfl
  | 1 => exact absurd (by decide) h
  | 2 => exact absurd (by decide) h
  | 3 => exact absurd (by decide) h
  | 4 => exact absurd (by decide) h
  | n + 5 => rfl

/-! ## Claim theorems -/

/-- Claim C1: for every domain, the entry frame's ordered button labels are
exactly the four initial-menu labels, and 1-based position `k` carries a
label exactly when the resolver defines a transition for index `k` — the
renderer's button positions and the resolver's table keys are in
one-to-one correspondence. -/
theorem entry_buttons_match_resolver (domain : String) :
    (renderEntry domain).buttonLabels =
      ["Buy & Boost", "Add Liquidity", "Gift", "More"] ∧
    ∀ k : Nat,
      (1 ≤ k ∧ k ≤ (renderEntry domain).buttonLabels.length) ↔
        (process_button k ⟨domain⟩).isOk := by
  refine ⟨rfl, ?_⟩
  intro k
  match k with
  | 0 =>
    rw [show (process_button 0 ⟨domain⟩).isOk = false from rfl]
    simp [renderEntry]
  | 1 =>
    rw [show (process_button 1 ⟨domain⟩).isOk = true from rfl]
    simp [renderEntry]
  | 2 =>
    rw [show (process_button 2 ⟨domain⟩).isOk = true from rfl]
    simp [renderEntry]
  | 3 =>
    rw [show (process_button 3 ⟨domain⟩).isOk = true from rfl]
    simp [renderEntry]
  | 4 =>
    rw [show (process_button 4 ⟨domain⟩).isOk = true from rfl]
    simp [renderEntry]
  | n + 5 =>
    rw [show (process_button (n + 5) ⟨domain⟩).isOk = false from rfl]
    simp [renderEntry]

/-- Claim C2: for every index in {1,2,3,4} and every domain, the resolver
succeeds with a button list of length between 1 and 4 and an image URL
that starts with the domain. -/
theorem resolver_ok_shape (i : Nat) (domain : String)
    (h : i = 1 ∨ i = 2 ∨ i = 3 ∨ i = 4) :
    ∃ img buttons, process_button i ⟨domain⟩ = Except.ok (img, buttons) ∧
      1 ≤ buttons.length ∧ buttons.length ≤ 4 ∧
      ∃ rest, img = domain ++ rest := by
  rcases h with rfl | rfl | rfl | rfl
  · exact ⟨_, _, rfl, by decide, by decide, "/assets/buy_boost.png", rfl⟩
  · exact ⟨_, _, rfl, by decide, by decide, "/assets/add_liquidity.png", rfl⟩
  · exact ⟨_, _, rfl, by decide, by decide, "/assets/gift.png", rfl⟩
  · exact ⟨_, _, rfl, by decide, by decide, "/assets/more.png", rfl⟩

/-- Witness for C2: the resolver output shape at index 1 and the localhost
domain. -/
theorem resolver_ok_shape_witness :
    ∃ img buttons,
      process_button 1 ⟨"http://localhost"⟩ = Except.ok (img, buttons) ∧
      1 ≤ buttons.length ∧ buttons.length ≤ 4 ∧
      ∃ rest, img = "http://localhost" ++ rest :=
  resolver_ok_shape 1 "http://localhost" (Or.inl rfl)

/-- Claim C3: for every index outside {1,2,3,4} (0 included; `usize` is
unsigned so negative indices are not representable) and every domain, the
resolver returns the `BadRequest` error as a normal result value, with a
reason string naming the offending index. -/
theorem resolver_invalid (i : Nat) (domain : String)
    (h : ¬(1 ≤ i ∧ i ≤ 4)) :
    process_button i ⟨domain⟩ =
      Except.error
        (AppError.BadRequest ("Invalid button index: " ++ toString i)) :=
  process_button_out_of_table i ⟨domain⟩ h

/-- Witness for C3: index 999 with the localhost domain. -/
theorem resolver_invalid_witness :
    process_button 999 ⟨"http://localhost"⟩ =
      Except.error
        (AppError.BadRequest ("Invalid button index: " ++ toString 999)) :=
  resolver_invalid 999 "http://localhost" (by decide)

/-- Claim C4: for every out-of-table index and every domain, the action
handler still answers with HTTP success (status 200), and its payload is
exactly the fixed fallback: the main image and the two labels
"Error Occurred" then "Try Again"; the resolver's error is never
propagated as a failure. -/
theorem handle_frame_fallback (i : Nat) (domain : String)
    (h : ¬(1 ≤ i ∧ i ≤ 4)) :
    handle_frame i ⟨domain⟩ =
      Except.ok ⟨200, ⟨domain ++ "/assets/main.png",
        [⟨"Error Occurred"⟩, ⟨"Try Again"⟩]⟩⟩ := by
  unfold handle_frame
  rw [process_button_out_of_table i ⟨domain⟩ h]

/-- Witness for C4: index 999 with the localhost domain yields the fixed
fallback payload with status 200. -/
theorem handle_frame_fallback_witness :
    handle_frame 999 ⟨"http://localhost"⟩ =
      Except.ok ⟨200, ⟨"http://localhost" ++ "/assets/main.png",
        [⟨"Error Occurred"⟩, ⟨"Try Again"⟩]⟩⟩ :=
  handle_frame_fallback 999 "http://localhost" (by decide)

/-- Claim C5: for every domain the entry frame's image URL is the domain
plus the fixed main-asset path and its action URL is the domain plus the
fixed action path; in particular for "http://localhost" the action URL is
"http://localhost/api/frame", the image URL is
"http://localhost/assets/main.png", and there are exactly the four
initial-menu labels. -/
theorem renderEntry_values (domain : String) :
    (renderEntry domain).imageURL = domain ++ "/assets/main.png" ∧
    (renderEntry domain).actionURL = domain ++ "/api/frame" ∧
    (renderEntry domain).buttonLabels =
      ["Buy & Boost", "Add Liquidity", "Gift", "More"] ∧
    (renderEntry "http://localhost").actionURL = "http://localhost/api/frame" ∧
    (renderEntry "http://localhost").imageURL =
      "http://localhost/assets/main.png" :=
  ⟨rfl, rfl, rfl, rfl, rfl⟩

/-- Claim C6: resolving index 1 for "http://localhost" yields exactly the
buy-boost image URL and the two buttons "Confirm" then "Back". -/
theorem resolver_buy_boost :
    process_button 1 ⟨"http://localhost"⟩ =
      Except.ok ("http://localhost/assets/buy_boost.png",
        [⟨"Confirm"⟩, ⟨"Back"⟩]) := rfl

/-- Claim C7: resolving index 4 for "http://localhost" yields exactly the
four buttons "Reward", "Bid", "Top-up", "Back" in that order — a button
list of length 4, the protocol's maximum. -/
theorem resolver_more_menu :
    process_button 4 ⟨"http://localhost"⟩ =
      Except.ok ("http://localhost/assets/more.png",
        [⟨"Reward"⟩, ⟨"Bid"⟩, ⟨"Top-up"⟩, ⟨"Back"⟩]) ∧
    ([(⟨"Reward"⟩ : Button), ⟨"Bid"⟩, ⟨"Top-up"⟩, ⟨"Back"⟩]).length = 4 :=
  ⟨rfl, rfl⟩

/-- Claim C8: the resolver is deterministic: two calls with identical
index and identical configuration produce identical results. -/
theorem resolver_deterministic (i j : Nat) (c d : Config)
    (hij : i = j) (hcd : c = d) :
    process_button i c = process_button j d := by
  subst hij
  subst hcd
  rfl

/-- Witness for C8: two calls at index 1 with the localhost configuration
agree. -/
theorem resolver_deterministic_witness :
    process_button 1 ⟨"http://localhost"⟩ =
      process_button 1 ⟨"http://localhost"⟩ :=
  resolver_deterministic 1 1 ⟨"http://localhost"⟩ ⟨"http://localhost"⟩ rfl rfl

/-- Claim C9: the index handler always succeeds: for every domain it
answers 200 with the templated HTML, and the internal-error branch is
unreachable because the templated output is never the empty string. -/
theorem index_always_ok (config : Config) :
    index config = Except.ok ⟨200, "text/html", indexHtml config⟩ ∧
    (indexHtml config).isEmpty = false := by
  have hne := indexHtml_isEmpty_false config
  refine ⟨?_, hne⟩
  unfold index
  simp [hne]

/-- Claim C10: for every domain, resolving index 3 yields the image URL
domain ++ "/assets/gift.png" and exactly the two buttons "Send Gift" then
"Back", in that order. -/
theorem resolver_gift (domain : String) :
    process_button 3 ⟨domain⟩ =
      Except.ok (domain ++ "/assets/gift.png",
        [⟨"Send Gift"⟩, ⟨"Back"⟩]) := rfl

end GoatFrame
